import Mathlib

/-!
# NestedDB.c : native helpers of the NestedVM build of the SQLite JDBC driver

Shallow embedding of `src/main/java/org/sqlite/NestedDB.c`.

The file talks to two collaborators that are not part of it: the embedded SQL
engine (the `sqlite3_*` functions and the `SQLITE_ANY` constant of `sqlite3.h`)
and the foreign dispatch function `_call_java`.  Both are taken as parameters
(`Env`): each is a function of the collaborator state `σ` that returns its C
result together with the next state.  Every call the helpers make is appended
to a trace, so that "calls exactly once, with exactly these arguments" is a
statement about the trace together with the state and the result, which are
the collaborator's own answer to that call.

Machine model: NestedVM executes MIPS32 code, so `int` and pointers are both
32 bits wide.  A pointer is its address (`Ptr = Nat`), an `int` is an `Int`;
the casts `(int)p` and `(void*)i` are written out with explicit `% 2^32`.
-/

namespace NestedDB

/-! ## Machine model -/

/-- A pointer, as the address it holds. -/
abbrev Ptr := Nat

/-- A `const char *`: the null pointer (`none`) or a NUL-terminated text. -/
abbrev CString := Option String

/-- Number of distinct 32-bit patterns, `2^32`. -/
def WORD : Nat := 4294967296

/-- Smallest value of a C `int` on the target. -/
def INT_MIN : Int := -2147483648

/-- Largest value of a C `int` on the target. -/
def INT_MAX : Int := 2147483647

/-- The cast `(int)p` of a pointer: the low 32 bits of the address read as a
two's complement number. -/
def ptrToInt (p : Ptr) : Int :=
  if p % 4294967296 < 2147483648 then ((p % 4294967296 : Nat) : Int)
  else ((p % 4294967296 : Nat) : Int) - 4294967296

/-- The cast `(void*)i` of an `int`: the 32-bit pattern of `i` as an address. -/
def intToPtr (i : Int) : Ptr :=
  (i % 4294967296).toNat

/-- C truth value of an `int` used as a condition. -/
def cTrue (i : Int) : Bool :=
  i != 0

/-! ## Data -/

/-- The `struct metadata` of the source. -/
structure metadata where
  pNotNull : Int
  pPrimaryKey : Int
  pAutoinc : Int
deriving DecidableEq, Repr

/-- The addresses of the three trampolines, as values of a function pointer. -/
inductive FnPtr where
  | xFunc_helper
  | xStep_helper
  | xFinal_helper
deriving DecidableEq, Repr

/-- Arguments of one `sqlite3_create_function` call.  A null callback pointer
is `none`. -/
structure CreateFunctionArgs where
  db : Ptr
  zFunctionName : CString
  nArg : Int
  eTextRep : Int
  pApp : Ptr
  xFunc : Option FnPtr
  xStep : Option FnPtr
  xFinal : Option FnPtr
deriving DecidableEq, Repr

/-- What `sqlite3_table_column_metadata` stored through the three `int *`
out-parameters it was given; `none` is "did not store". -/
structure MetaWrites where
  pNotNull : Option Int
  pPrimaryKey : Option Int
  pAutoinc : Option Int
deriving DecidableEq, Repr

/-- Arguments of one `sqlite3_table_column_metadata` call.  For the two
`char const **` out-parameters the flag says whether a non-null pointer was
passed; for the three `int *` out-parameters the value is the content of the
cell pointed to at the time of the call. -/
structure TableColumnMetadataArgs where
  db : Ptr
  zDbName : CString
  zTableName : CString
  zColumnName : CString
  pzDataType : Bool
  pzCollSeq : Bool
  pNotNull : Int
  pPrimaryKey : Int
  pAutoinc : Int
deriving DecidableEq, Repr

/-- One call made by the helpers to a collaborator. -/
inductive Event where
  | sqlite3_column_table_name (stmt : Ptr) (col : Int)
  | sqlite3_column_name (stmt : Ptr) (col : Int)
  | sqlite3_table_column_metadata (a : TableColumnMetadataArgs)
  | sqlite3_create_function (a : CreateFunctionArgs)
  | _call_java (xType context args value : Int)
deriving DecidableEq, Repr

/-- The collaborators of `NestedDB.c`, over a collaborator state `σ`. -/
structure Env (σ : Type) where
  /-- The text-encoding constant of `sqlite3.h`. -/
  SQLITE_ANY : Int
  sqlite3_column_table_name : σ → Ptr → Int → CString × σ
  sqlite3_column_name : σ → Ptr → Int → CString × σ
  /-- Part of the engine's introspection interface; `NestedDB.c` never calls it. -/
  sqlite3_column_origin_name : σ → Ptr → Int → CString × σ
  sqlite3_table_column_metadata : σ → TableColumnMetadataArgs → Int × MetaWrites × σ
  sqlite3_create_function : σ → CreateFunctionArgs → Int × σ
  _call_java : σ → Int → Int → Int → Int → Int × σ

/-- The collaborator state together with the calls made so far. -/
structure World (σ : Type) where
  st : σ
  trace : List Event

/-! ## Calls to the collaborators -/

/-- Call `sqlite3_column_table_name(stmt, col)`. -/
def call_column_table_name {σ : Type} (e : Env σ) (stmt : Ptr) (col : Int)
    (w : World σ) : CString × World σ :=
  let r := e.sqlite3_column_table_name w.st stmt col
  (r.1, { st := r.2, trace := w.trace ++ [Event.sqlite3_column_table_name stmt col] })

/-- Call `sqlite3_column_name(stmt, col)`. -/
def call_column_name {σ : Type} (e : Env σ) (stmt : Ptr) (col : Int)
    (w : World σ) : CString × World σ :=
  let r := e.sqlite3_column_name w.st stmt col
  (r.1, { st := r.2, trace := w.trace ++ [Event.sqlite3_column_name stmt col] })

/-- Store the writes of the engine into the record the out-pointers point to. -/
def MetaWrites.store (m : MetaWrites) (p : metadata) : metadata :=
  { pNotNull := m.pNotNull.getD p.pNotNull
    pPrimaryKey := m.pPrimaryKey.getD p.pPrimaryKey
    pAutoinc := m.pAutoinc.getD p.pAutoinc }

/-- Call `sqlite3_table_column_metadata(db, zDbName, zTableName, zColumnName,
0, 0, &p->pNotNull, &p->pPrimaryKey, &p->pAutoinc)`. -/
def call_table_column_metadata {σ : Type} (e : Env σ) (db : Ptr)
    (zDbName zTableName zColumnName : CString) (p : metadata)
    (w : World σ) : Int × metadata × World σ :=
  let a : TableColumnMetadataArgs :=
    { db := db, zDbName := zDbName, zTableName := zTableName, zColumnName := zColumnName
      pzDataType := false, pzCollSeq := false
      pNotNull := p.pNotNull, pPrimaryKey := p.pPrimaryKey, pAutoinc := p.pAutoinc }
  let r := e.sqlite3_table_column_metadata w.st a
  (r.1, r.2.1.store p,
    { st := r.2.2, trace := w.trace ++ [Event.sqlite3_table_column_metadata a] })

/-- Call `sqlite3_create_function` with the given arguments. -/
def call_create_function {σ : Type} (e : Env σ) (a : CreateFunctionArgs)
    (w : World σ) : Int × World σ :=
  let r := e.sqlite3_create_function w.st a
  (r.1, { st := r.2, trace := w.trace ++ [Event.sqlite3_create_function a] })

/-- Call `_call_java(xType, context, args, value)`. -/
def call_java {σ : Type} (e : Env σ) (xType context args value : Int)
    (w : World σ) : Int × World σ :=
  let r := e._call_java w.st xType context args value
  (r.1, { st := r.2, trace := w.trace ++ [Event._call_java xType context args value] })

/-! ## The functions of `NestedDB.c` -/

/-- The function `column_metadata_helper(db, stmt, col, p)`.  The record `*p` is
passed in with its prior content and returned with its final content. -/
def column_metadata_helper {σ : Type} (e : Env σ) (db stmt : Ptr) (col : Int)
    (p : metadata) (w : World σ) : Int × metadata × World σ :=
  let rc : Int := 0
  let p := { p with pNotNull := 0 }
  let p := { p with pPrimaryKey := 0 }
  let p := { p with pAutoinc := 0 }
  let t := call_column_table_name e stmt col w
  let c := call_column_name e stmt col t.2
  let zTableName := t.1
  let zColumnName := c.1
  if zTableName.isSome && zColumnName.isSome then
    call_table_column_metadata e db none zTableName zColumnName p c.2
  else
    (rc, p, c.2)

/-- The trampoline `xFunc_helper(context, args, value)`. -/
def xFunc_helper {σ : Type} (e : Env σ) (context : Ptr) (args : Int) (value : Ptr)
    (w : World σ) : World σ :=
  (call_java e 1 (ptrToInt context) args (ptrToInt value) w).2

/-- The trampoline `xStep_helper(context, args, value)`. -/
def xStep_helper {σ : Type} (e : Env σ) (context : Ptr) (args : Int) (value : Ptr)
    (w : World σ) : World σ :=
  (call_java e 2 (ptrToInt context) args (ptrToInt value) w).2

/-- The trampoline `xFinal_helper(context)`. -/
def xFinal_helper {σ : Type} (e : Env σ) (context : Ptr) (w : World σ) : World σ :=
  (call_java e 3 (ptrToInt context) 0 0 w).2

/-- The function `create_function_helper(db, name, pos, agg)`. -/
def create_function_helper {σ : Type} (e : Env σ) (db : Ptr) (name : CString)
    (pos agg : Int) (w : World σ) : Int × World σ :=
  call_create_function e
    { db := db
      zFunctionName := name
      nArg := -1
      eTextRep := e.SQLITE_ANY
      pApp := intToPtr pos
      xFunc := if decide (pos ≥ 0) && !cTrue agg then some FnPtr.xFunc_helper else none
      xStep := if decide (pos ≥ 0) && cTrue agg then some FnPtr.xStep_helper else none
      xFinal := if decide (pos ≥ 0) && cTrue agg then some FnPtr.xFinal_helper else none }
    w

/-! ## Sequences of engine invocations -/

/-- One invocation of a trampoline by the engine, with the arguments the
engine passes. -/
inductive Invocation where
  | xFunc_helper (context : Ptr) (args : Int) (value : Ptr)
  | xStep_helper (context : Ptr) (args : Int) (value : Ptr)
  | xFinal_helper (context : Ptr)
deriving DecidableEq, Repr

/-- Run the invoked trampoline. -/
def Invocation.run {σ : Type} (e : Env σ) : Invocation → World σ → World σ
  | Invocation.xFunc_helper context args value, w => NestedDB.xFunc_helper e context args value w
  | Invocation.xStep_helper context args value, w => NestedDB.xStep_helper e context args value w
  | Invocation.xFinal_helper context, w => NestedDB.xFinal_helper e context w

/-- Run a finite sequence of invocations, first to last. -/
def runAll {σ : Type} (e : Env σ) (is : List Invocation) (w : World σ) : World σ :=
  is.foldl (fun acc i => i.run e acc) w

/-- Call-kind tag that belongs to a trampoline: SCALAR = 1, STEP = 2,
FINAL = 3. -/
def Invocation.tag : Invocation → Int
  | Invocation.xFunc_helper _ _ _ => 1
  | Invocation.xStep_helper _ _ _ => 2
  | Invocation.xFinal_helper _ => 3

/-- The engine's invocations for one aggregate run: one step per row, each
with the handle, the count and the vector the engine passes for that row,
then one final with the handle the engine passes for it. -/
def aggregateRun (rows : List (Ptr × Int × Ptr)) (finalContext : Ptr) : List Invocation :=
  rows.map (fun r => Invocation.xStep_helper r.1 r.2.1 r.2.2) ++
    [Invocation.xFinal_helper finalContext]

/-- One call as the foreign dispatch function receives it:
`(xType, context, args, value)`. -/
abbrev Call := Int × Int × Int × Int

/-- The trace entry of a call received by the dispatch function. -/
def callEvent (c : Call) : Event :=
  Event._call_java c.1 c.2.1 c.2.2.1 c.2.2.2

/-- Stated from the spec (sections 4.2 and 8), not from the trampolines: the
call the dispatch function is to observe for one invocation, namely the
invocation's tag with the handle, the count and the vector as received, and
for the final entry the tag with the handle, count 0 and a null vector. -/
def Invocation.expectedCall : Invocation → Call
  | Invocation.xFunc_helper context args value => (1, ptrToInt context, args, ptrToInt value)
  | Invocation.xStep_helper context args value => (2, ptrToInt context, args, ptrToInt value)
  | Invocation.xFinal_helper context => (3, ptrToInt context, 0, 0)

/-- The foreign dispatch function applied to a list of calls, first to last,
starting from the collaborator state `s`. -/
def dispatchAll {σ : Type} (e : Env σ) (cs : List Call) (s : σ) : σ :=
  cs.foldl (fun acc c => (e._call_java acc c.1 c.2.1 c.2.2.1 c.2.2.2).2) s

/-! ## Reading a trace -/

/-- The `xType` of a `_call_java` call; `none` for any other call. -/
def Event.xType : Event → Option Int
  | Event._call_java xType _ _ _ => some xType
  | _ => none

/-- The schema-metadata queries of a trace, in order. -/
def metadataQueries : List Event → List TableColumnMetadataArgs
  | [] => []
  | Event.sqlite3_table_column_metadata a :: t => a :: metadataQueries t
  | _ :: t => metadataQueries t

/-! ## A small concrete collaborator

One table `t(id INTEGER PRIMARY KEY AUTOINCREMENT NOT NULL)` and one prepared
statement `SELECT id, id AS x, id+1 FROM t`.  The state is the list of calls
the foreign dispatch function has observed. -/

/-- The engine's `SQLITE_ERROR`. -/
def SQLITE_ERROR : Int := 1

/-- The small concrete collaborator. -/
def demoEnv : Env (List (Int × Int × Int × Int)) where
  SQLITE_ANY := 5
  sqlite3_column_table_name := fun s _ col =>
    (if col = 0 ∨ col = 1 then some "t" else none, s)
  sqlite3_column_name := fun s _ col =>
    (if col = 0 then some "id" else if col = 1 then some "x"
      else if col = 2 then some "id+1" else none, s)
  sqlite3_column_origin_name := fun s _ col =>
    (if col = 0 ∨ col = 1 then some "id" else none, s)
  sqlite3_table_column_metadata := fun s a =>
    if a.zTableName = some "t" ∧ a.zColumnName = some "id" then
      (0, { pNotNull := some 1, pPrimaryKey := some 1, pAutoinc := some 1 }, s)
    else
      (SQLITE_ERROR, { pNotNull := some 0, pPrimaryKey := some 0, pAutoinc := some 0 }, s)
  sqlite3_create_function := fun s a =>
    (if a.zFunctionName = none then SQLITE_ERROR else 0, s)
  _call_java := fun s xType context args value =>
    (0, s ++ [(xType, context, args, value)])

/-- The initial world of the small collaborator: nothing observed, nothing
called. -/
def demoWorld : World (List (Int × Int × Int × Int)) :=
  { st := [], trace := [] }

/-! ## A registering engine

An engine whose state is its function table, kept as the list of the
registrations it has received; it answers the number of registrations it held
before the call as its status, so that the status tells one call from the
next. -/

/-- The registering engine. -/
def registryEnv : Env (List CreateFunctionArgs) where
  SQLITE_ANY := 5
  sqlite3_column_table_name := fun s _ _ => (none, s)
  sqlite3_column_name := fun s _ _ => (none, s)
  sqlite3_column_origin_name := fun s _ _ => (none, s)
  sqlite3_table_column_metadata := fun s _ =>
    (SQLITE_ERROR, { pNotNull := none, pPrimaryKey := none, pAutoinc := none }, s)
  sqlite3_create_function := fun s a => ((s.length : Int), s ++ [a])
  _call_java := fun s _ _ _ _ => (0, s)

/-- The initial world of the registering engine: an empty function table,
nothing called. -/
def registryWorld : World (List CreateFunctionArgs) :=
  { st := [], trace := [] }

/-! ## The casts between `int` and pointers lose nothing on the target -/

theorem intToPtr_ptrToInt (p : Nat) (h : p < WORD) : intToPtr (ptrToInt p) = p := by
  have hp : p < 4294967296 := h
  have hm : (p : Nat) % 4294967296 = p := Nat.mod_eq_of_lt hp
  unfold intToPtr ptrToInt
  rw [hm]
  by_cases hlt : (p : Nat) < 2147483648
  · rw [if_pos hlt]
    have h0 : ((p : Nat) : Int) % 4294967296 = ((p : Nat) : Int) := by omega
    rw [h0]
    exact Int.toNat_ofNat p
  · rw [if_neg hlt]
    have h0 : (((p : Nat) : Int) - 4294967296) % 4294967296 = ((p : Nat) : Int) := by omega
    rw [h0]
    exact Int.toNat_ofNat p

theorem ptrToInt_intToPtr (i : Int) (h1 : INT_MIN ≤ i) (h2 : i ≤ INT_MAX) :
    ptrToInt (intToPtr i) = i := by
  have h1a : (-2147483648 : Int) ≤ i := h1
  have h2a : i ≤ (2147483647 : Int) := h2
  have hnn : (0 : Int) ≤ i % 4294967296 := Int.emod_nonneg i (by decide)
  have hcast : (((i % 4294967296).toNat : Nat) : Int) = i % 4294967296 :=
    Int.toNat_of_nonneg hnn
  have hlt : (i % 4294967296).toNat < 4294967296 := by omega
  unfold intToPtr ptrToInt
  rw [Nat.mod_eq_of_lt hlt, hcast]
  by_cases hs : (i % 4294967296).toNat < 2147483648
  · rw [if_pos hs]
    omega
  · rw [if_neg hs]
    omega

theorem metadataQueries_append (t u : List Event) :
    metadataQueries (t ++ u) = metadataQueries t ++ metadataQueries u := by
  induction t with
  | nil => rfl
  | cons ev t ih => cases ev <;> simp [metadataQueries, ih]

/-! ## `create_function_helper` -/

/-- C1: for every `pos ≥ 0`, every connection and every name,
`create_function_helper` hands the engine, in one `sqlite3_create_function`
call made on the entry state, the callback triple `(xFunc_helper, 0, 0)` when
`agg` is zero and `(0, xStep_helper, xFinal_helper)` when `agg` is non-zero:
the call is logged once, the next engine state is the engine's own answer to
exactly that call, and so is the status returned. -/
theorem create_function_helper_wiring {σ : Type} (e : Env σ) (w : World σ) (db : Ptr)
    (name : CString) (pos agg : Int) (h : 0 ≤ pos) :
    (agg = 0 →
      (create_function_helper e db name pos agg w).2.trace = w.trace ++
        [Event.sqlite3_create_function
          { db := db, zFunctionName := name, nArg := -1, eTextRep := e.SQLITE_ANY
            pApp := intToPtr pos
            xFunc := some FnPtr.xFunc_helper, xStep := none, xFinal := none }] ∧
      (create_function_helper e db name pos agg w).2.st =
        (e.sqlite3_create_function w.st
          { db := db, zFunctionName := name, nArg := -1, eTextRep := e.SQLITE_ANY
            pApp := intToPtr pos
            xFunc := some FnPtr.xFunc_helper, xStep := none, xFinal := none }).2 ∧
      (create_function_helper e db name pos agg w).1 =
        (e.sqlite3_create_function w.st
          { db := db, zFunctionName := name, nArg := -1, eTextRep := e.SQLITE_ANY
            pApp := intToPtr pos
            xFunc := some FnPtr.xFunc_helper, xStep := none, xFinal := none }).1) ∧
    (agg ≠ 0 →
      (create_function_helper e db name pos agg w).2.trace = w.trace ++
        [Event.sqlite3_create_function
          { db := db, zFunctionName := name, nArg := -1, eTextRep := e.SQLITE_ANY
            pApp := intToPtr pos
            xFunc := none, xStep := some FnPtr.xStep_helper
            xFinal := some FnPtr.xFinal_helper }] ∧
      (create_function_helper e db name pos agg w).2.st =
        (e.sqlite3_create_function w.st
          { db := db, zFunctionName := name, nArg := -1, eTextRep := e.SQLITE_ANY
            pApp := intToPtr pos
            xFunc := none, xStep := some FnPtr.xStep_helper
            xFinal := some FnPtr.xFinal_helper }).2 ∧
      (create_function_helper e db name pos agg w).1 =
        (e.sqlite3_create_function w.st
          { db := db, zFunctionName := name, nArg := -1, eTextRep := e.SQLITE_ANY
            pApp := intToPtr pos
            xFunc := none, xStep := some FnPtr.xStep_helper
            xFinal := some FnPtr.xFinal_helper }).1) := by
  constructor
  · intro h0
    simp [create_function_helper, call_create_function, cTrue, h, h0]
  · intro h0
    simp [create_function_helper, call_create_function, cTrue, h, h0]

/-- Witness of C1: a scalar function at position 3 and an aggregate at
position 5; the function table of the registering engine then holds exactly
the scalar wiring, respectively exactly the step and final wiring. -/
theorem create_function_helper_wiring_witness :
    ((0 : Int) ≤ 3 ∧
      (create_function_helper registryEnv 16 (some "double_it") 3 0 registryWorld).2.st
        = [{ db := 16, zFunctionName := some "double_it", nArg := -1, eTextRep := 5
             pApp := 3, xFunc := some FnPtr.xFunc_helper, xStep := none, xFinal := none }] ∧
      (create_function_helper registryEnv 16 (some "double_it") 3 0 registryWorld).1 = 0) ∧
    ((0 : Int) ≤ 5 ∧
      (create_function_helper registryEnv 16 (some "count_pos") 5 1 registryWorld).2.st
        = [{ db := 16, zFunctionName := some "count_pos", nArg := -1, eTextRep := 5
             pApp := 5, xFunc := none, xStep := some FnPtr.xStep_helper
             xFinal := some FnPtr.xFinal_helper }] ∧
      (create_function_helper registryEnv 16 (some "count_pos") 5 1 registryWorld).1 = 0) :=
  ⟨⟨by decide,
    ((create_function_helper_wiring registryEnv registryWorld 16 (some "double_it") 3 0
      (by decide)).1 rfl).2⟩,
   ⟨by decide,
    ((create_function_helper_wiring registryEnv registryWorld 16 (some "count_pos") 5 1
      (by decide)).2 (by decide)).2⟩⟩

/-- C2: for every `pos < 0` and every `agg`, `create_function_helper` hands
the engine, in one `sqlite3_create_function` call made on the entry state, the
callback triple `(0, 0, 0)`; the whole outcome (status, engine state, calls
made) is the same whatever `agg` is, and making the call a second time hands
the engine the same cleared registration again. -/
theorem create_function_helper_unregister {σ : Type} (e : Env σ) (w : World σ) (db : Ptr)
    (name : CString) (pos agg : Int) (h : pos < 0) :
    ((create_function_helper e db name pos agg w).2.trace = w.trace ++
        [Event.sqlite3_create_function
          { db := db, zFunctionName := name, nArg := -1, eTextRep := e.SQLITE_ANY
            pApp := intToPtr pos, xFunc := none, xStep := none, xFinal := none }] ∧
      (create_function_helper e db name pos agg w).2.st =
        (e.sqlite3_create_function w.st
          { db := db, zFunctionName := name, nArg := -1, eTextRep := e.SQLITE_ANY
            pApp := intToPtr pos, xFunc := none, xStep := none, xFinal := none }).2 ∧
      (create_function_helper e db name pos agg w).1 =
        (e.sqlite3_create_function w.st
          { db := db, zFunctionName := name, nArg := -1, eTextRep := e.SQLITE_ANY
            pApp := intToPtr pos, xFunc := none, xStep := none, xFinal := none }).1) ∧
    (∀ agg2 : Int,
      create_function_helper e db name pos agg2 w
        = create_function_helper e db name pos agg w) ∧
    ((create_function_helper e db name pos agg
          (create_function_helper e db name pos agg w).2).2.trace = w.trace ++
        [Event.sqlite3_create_function
          { db := db, zFunctionName := name, nArg := -1, eTextRep := e.SQLITE_ANY
            pApp := intToPtr pos, xFunc := none, xStep := none, xFinal := none },
         Event.sqlite3_create_function
          { db := db, zFunctionName := name, nArg := -1, eTextRep := e.SQLITE_ANY
            pApp := intToPtr pos, xFunc := none, xStep := none, xFinal := none }] ∧
      (create_function_helper e db name pos agg
          (create_function_helper e db name pos agg w).2).2.st =
        (e.sqlite3_create_function
          (e.sqlite3_create_function w.st
            { db := db, zFunctionName := name, nArg := -1, eTextRep := e.SQLITE_ANY
              pApp := intToPtr pos, xFunc := none, xStep := none, xFinal := none }).2
          { db := db, zFunctionName := name, nArg := -1, eTextRep := e.SQLITE_ANY
            pApp := intToPtr pos, xFunc := none, xStep := none, xFinal := none }).2) := by
  have hn : ¬ (0 ≤ pos) := by omega
  refine ⟨⟨?_, ?_, ?_⟩, ?_, ⟨?_, ?_⟩⟩
  · simp [create_function_helper, call_create_function, hn]
  · simp [create_function_helper, call_create_function, hn]
  · simp [create_function_helper, call_create_function, hn]
  · intro agg2
    simp [create_function_helper, call_create_function, hn]
  · simp [create_function_helper, call_create_function, hn]
  · simp [create_function_helper, call_create_function, hn]

/-- Witness of C2: unregistering with position -1; the registering engine
receives the cleared registration, the outcome with `agg = 1` is the outcome
with `agg = 0`, and after a second call its table holds the cleared
registration twice. -/
theorem create_function_helper_unregister_witness :
    (-1 : Int) < 0 ∧
    (create_function_helper registryEnv 16 (some "double_it") (-1) 0 registryWorld).2.st
      = [{ db := 16, zFunctionName := some "double_it", nArg := -1, eTextRep := 5
           pApp := 4294967295, xFunc := none, xStep := none, xFinal := none }] ∧
    create_function_helper registryEnv 16 (some "double_it") (-1) 1 registryWorld
      = create_function_helper registryEnv 16 (some "double_it") (-1) 0 registryWorld ∧
    (create_function_helper registryEnv 16 (some "double_it") (-1) 0
        (create_function_helper registryEnv 16 (some "double_it") (-1) 0 registryWorld).2).2.st
      = [{ db := 16, zFunctionName := some "double_it", nArg := -1, eTextRep := 5
           pApp := 4294967295, xFunc := none, xStep := none, xFinal := none },
         { db := 16, zFunctionName := some "double_it", nArg := -1, eTextRep := 5
           pApp := 4294967295, xFunc := none, xStep := none, xFinal := none }] :=
  ⟨by decide,
   (create_function_helper_unregister registryEnv registryWorld 16 (some "double_it") (-1) 0
      (by decide)).1.2.1,
   (create_function_helper_unregister registryEnv registryWorld 16 (some "double_it") (-1) 0
      (by decide)).2.1 1,
   (create_function_helper_unregister registryEnv registryWorld 16 (some "double_it") (-1) 0
      (by decide)).2.2.2⟩

/-- C8: for every connection, name, `pos` and `agg`, `create_function_helper`
makes exactly one registration call, on the entry state of the engine, and
returns what that call returns; the non-callback arguments of the call are
the given connection, the given name, arity -1, encoding `SQLITE_ANY` and the
user-data pointer `(void*)pos`, which converts back to the integer `pos`. -/
theorem create_function_helper_fixed_arguments {σ : Type} (e : Env σ) (w : World σ)
    (db : Ptr) (name : CString) (pos agg : Int)
    (hlo : INT_MIN ≤ pos) (hhi : pos ≤ INT_MAX) :
    ∃ xFunc xStep xFinal : Option FnPtr,
      (create_function_helper e db name pos agg w).2.trace = w.trace ++
        [Event.sqlite3_create_function
          { db := db, zFunctionName := name, nArg := -1, eTextRep := e.SQLITE_ANY
            pApp := intToPtr pos, xFunc := xFunc, xStep := xStep, xFinal := xFinal }] ∧
      (create_function_helper e db name pos agg w).2.st =
        (e.sqlite3_create_function w.st
          { db := db, zFunctionName := name, nArg := -1, eTextRep := e.SQLITE_ANY
            pApp := intToPtr pos, xFunc := xFunc, xStep := xStep, xFinal := xFinal }).2 ∧
      (create_function_helper e db name pos agg w).1 =
        (e.sqlite3_create_function w.st
          { db := db, zFunctionName := name, nArg := -1, eTextRep := e.SQLITE_ANY
            pApp := intToPtr pos, xFunc := xFunc, xStep := xStep, xFinal := xFinal }).1 ∧
      ptrToInt (intToPtr pos) = pos :=
  ⟨_, _, _, rfl, rfl, rfl, ptrToInt_intToPtr pos hlo hhi⟩

/-- Witness of C8: position -7 with `agg = 1`, made as the second call to the
registering engine, which then holds two registrations and answers status 1
for this one. -/
theorem create_function_helper_fixed_arguments_witness :
    (INT_MIN ≤ -7 ∧ (-7 : Int) ≤ INT_MAX) ∧
    ∃ xFunc xStep xFinal : Option FnPtr,
      (create_function_helper registryEnv 16 (some "f") (-7) 1
          (create_function_helper registryEnv 16 (some "g") 2 0 registryWorld).2).2.trace
        = (create_function_helper registryEnv 16 (some "g") 2 0 registryWorld).2.trace ++
          [Event.sqlite3_create_function
            { db := 16, zFunctionName := some "f", nArg := -1
              eTextRep := registryEnv.SQLITE_ANY
              pApp := intToPtr (-7), xFunc := xFunc, xStep := xStep, xFinal := xFinal }] ∧
      (create_function_helper registryEnv 16 (some "f") (-7) 1
          (create_function_helper registryEnv 16 (some "g") 2 0 registryWorld).2).2.st
        = (registryEnv.sqlite3_create_function
            (create_function_helper registryEnv 16 (some "g") 2 0 registryWorld).2.st
            { db := 16, zFunctionName := some "f", nArg := -1
              eTextRep := registryEnv.SQLITE_ANY
              pApp := intToPtr (-7), xFunc := xFunc, xStep := xStep, xFinal := xFinal }).2 ∧
      (create_function_helper registryEnv 16 (some "f") (-7) 1
          (create_function_helper registryEnv 16 (some "g") 2 0 registryWorld).2).1
        = (registryEnv.sqlite3_create_function
            (create_function_helper registryEnv 16 (some "g") 2 0 registryWorld).2.st
            { db := 16, zFunctionName := some "f", nArg := -1
              eTextRep := registryEnv.SQLITE_ANY
              pApp := intToPtr (-7), xFunc := xFunc, xStep := xStep, xFinal := xFinal }).1 ∧
      ptrToInt (intToPtr (-7)) = -7 :=
  ⟨⟨by decide, by decide⟩,
   create_function_helper_fixed_arguments registryEnv
     (create_function_helper registryEnv 16 (some "g") 2 0 registryWorld).2
     16 (some "f") (-7) 1 (by decide) (by decide)⟩

/-- C9: for every connection, name, `pos` and `agg`, the status returned by
`create_function_helper` is the status the engine returned for the one
registration call it made, unchanged; so it is 0 exactly when the engine
reported 0. -/
theorem create_function_helper_status {σ : Type} (e : Env σ) (w : World σ)
    (db : Ptr) (name : CString) (pos agg : Int) :
    ∃ a : CreateFunctionArgs,
      (create_function_helper e db name pos agg w).2.trace
        = w.trace ++ [Event.sqlite3_create_function a] ∧
      (create_function_helper e db name pos agg w).1
        = (e.sqlite3_create_function w.st a).1 ∧
      (create_function_helper e db name pos agg w).2.st
        = (e.sqlite3_create_function w.st a).2 ∧
      ((create_function_helper e db name pos agg w).1 = 0
        ↔ (e.sqlite3_create_function w.st a).1 = 0) :=
  ⟨_, rfl, rfl, rfl, Iff.rfl⟩

/-! ## The trampolines -/

/-- C3: for every execution handle `H`, argument count `n` and argument vector
`V`, `xFunc_helper(H, n, V)` makes exactly one call, `_call_java(1, (int)H, n,
(int)V)`, and `xStep_helper(H, n, V)` makes exactly one call, `_call_java(2,
(int)H, n, (int)V)`, each on the collaborator state it was entered with; the
count is passed as it is and the two casts lose nothing, so the handle and
the vector are recovered from what the dispatch function observes. -/
theorem trampolines_forward {σ : Type} (e : Env σ) (w : World σ) (H V : Ptr) (n : Int)
    (hH : H < WORD) (hV : V < WORD) :
    (xFunc_helper e H n V w).trace
      = w.trace ++ [Event._call_java 1 (ptrToInt H) n (ptrToInt V)] ∧
    (xFunc_helper e H n V w).st = (e._call_java w.st 1 (ptrToInt H) n (ptrToInt V)).2 ∧
    (xStep_helper e H n V w).trace
      = w.trace ++ [Event._call_java 2 (ptrToInt H) n (ptrToInt V)] ∧
    (xStep_helper e H n V w).st = (e._call_java w.st 2 (ptrToInt H) n (ptrToInt V)).2 ∧
    intToPtr (ptrToInt H) = H ∧ intToPtr (ptrToInt V) = V :=
  ⟨rfl, rfl, rfl, rfl, intToPtr_ptrToInt H hH, intToPtr_ptrToInt V hV⟩

/-- Witness of C3: handle 4096, two arguments, argument vector at 8192; the
dispatch function of the small collaborator observes `(1, 4096, 2, 8192)` for
the scalar entry and `(2, 4096, 2, 8192)` for the step entry. -/
theorem trampolines_forward_witness :
    ((4096 : Nat) < WORD ∧ (8192 : Nat) < WORD) ∧
    (xFunc_helper demoEnv 4096 2 8192 demoWorld).trace = [Event._call_java 1 4096 2 8192] ∧
    (xFunc_helper demoEnv 4096 2 8192 demoWorld).st = [(1, 4096, 2, 8192)] ∧
    (xStep_helper demoEnv 4096 2 8192 demoWorld).trace = [Event._call_java 2 4096 2 8192] ∧
    (xStep_helper demoEnv 4096 2 8192 demoWorld).st = [(2, 4096, 2, 8192)] ∧
    intToPtr (ptrToInt 4096) = 4096 ∧ intToPtr (ptrToInt 8192) = 8192 :=
  ⟨⟨by decide, by decide⟩,
   trampolines_forward demoEnv demoWorld 4096 8192 2 (by decide) (by decide)⟩

/-- C4: for every execution handle `H`, `xFinal_helper(H)` makes exactly one
call, `_call_java(3, (int)H, 0, 0)`, on the collaborator state it was entered
with, whatever that state and the calls before it are; the cast loses
nothing. -/
theorem xFinal_helper_forward {σ : Type} (e : Env σ) (w : World σ) (H : Ptr)
    (hH : H < WORD) :
    (xFinal_helper e H w).trace = w.trace ++ [Event._call_java 3 (ptrToInt H) 0 0] ∧
    (xFinal_helper e H w).st = (e._call_java w.st 3 (ptrToInt H) 0 0).2 ∧
    intToPtr (ptrToInt H) = H :=
  ⟨rfl, rfl, intToPtr_ptrToInt H hH⟩

/-- Witness of C4: the final entry on handle 4096 after one step call with
two arguments; the dispatch function of the small collaborator observes
`(3, 4096, 0, 0)` last. -/
theorem xFinal_helper_forward_witness :
    (4096 : Nat) < WORD ∧
    (xFinal_helper demoEnv 4096 (xStep_helper demoEnv 4096 2 8192 demoWorld)).trace
      = [Event._call_java 2 4096 2 8192, Event._call_java 3 4096 0 0] ∧
    (xFinal_helper demoEnv 4096 (xStep_helper demoEnv 4096 2 8192 demoWorld)).st
      = [(2, 4096, 2, 8192), (3, 4096, 0, 0)] ∧
    intToPtr (ptrToInt 4096) = 4096 :=
  ⟨by decide,
   xFinal_helper_forward demoEnv (xStep_helper demoEnv 4096 2 8192 demoWorld) 4096 (by decide)⟩

/-- One invocation makes the expected call, once, on the entry state. -/
theorem Invocation.run_eq {σ : Type} (e : Env σ) (i : Invocation) (w : World σ) :
    i.run e w =
      { st := dispatchAll e [i.expectedCall] w.st
        trace := w.trace ++ [callEvent i.expectedCall] } := by
  cases i <;> rfl

/-- A sequence of invocations makes the expected calls, in order. -/
theorem runAll_eq {σ : Type} (e : Env σ) (is : List Invocation) (w : World σ) :
    runAll e is w =
      { st := dispatchAll e (is.map Invocation.expectedCall) w.st
        trace := w.trace ++ (is.map Invocation.expectedCall).map callEvent } := by
  induction is generalizing w with
  | nil => simp [runAll, dispatchAll]
  | cons i is ih =>
    have hstep : runAll e (i :: is) w = runAll e is (i.run e w) := rfl
    rw [hstep, ih, Invocation.run_eq]
    simp [dispatchAll]

/-- The tag of the expected call is the tag of the invoked trampoline. -/
theorem expectedCall_xType (is : List Invocation) :
    ((is.map Invocation.expectedCall).map callEvent).map Event.xType
      = is.map (fun i => some i.tag) := by
  induction is with
  | nil => rfl
  | cons i is ih =>
    cases i <;>
      simpa [Invocation.expectedCall, callEvent, Event.xType, Invocation.tag] using ih

/-- The expected calls of one aggregate run. -/
theorem aggregateRun_expectedCall (rows : List (Ptr × Int × Ptr)) (finalContext : Ptr) :
    (aggregateRun rows finalContext).map Invocation.expectedCall
      = rows.map (fun r => ((2 : Int), ptrToInt r.1, r.2.1, ptrToInt r.2.2)) ++
          [((3 : Int), ptrToInt finalContext, (0 : Int), (0 : Int))] := by
  simp [aggregateRun, Invocation.expectedCall, Function.comp_def]

/-- C10: for every finite sequence of trampoline invocations, the calls the
foreign dispatch function receives are the expected calls of the invocations,
as many and in the same order, the i-th carrying the tag of the i-th invoked
trampoline; this holds of the log and of the dispatch function's own state.
For an aggregate run over `n` rows, with whatever handles the engine passes,
the dispatch function receives `n` calls tagged 2 and then one call tagged 3
with argument count 0, `n + 1` calls in all. -/
theorem trampolines_keep_order {σ : Type} (e : Env σ) (w : World σ)
    (is : List Invocation) (rows : List (Ptr × Int × Ptr)) (finalContext : Ptr) :
    ((runAll e is w).trace
        = w.trace ++ (is.map Invocation.expectedCall).map callEvent ∧
      (runAll e is w).st = dispatchAll e (is.map Invocation.expectedCall) w.st ∧
      ((is.map Invocation.expectedCall).map callEvent).length = is.length ∧
      ((is.map Invocation.expectedCall).map callEvent).map Event.xType
        = is.map (fun i => some i.tag)) ∧
    ((runAll e (aggregateRun rows finalContext) w).trace = w.trace ++
        (rows.map (fun r => Event._call_java 2 (ptrToInt r.1) r.2.1 (ptrToInt r.2.2)) ++
          [Event._call_java 3 (ptrToInt finalContext) 0 0]) ∧
      (runAll e (aggregateRun rows finalContext) w).st
        = dispatchAll e
            (rows.map (fun r => ((2 : Int), ptrToInt r.1, r.2.1, ptrToInt r.2.2)) ++
              [((3 : Int), ptrToInt finalContext, (0 : Int), (0 : Int))]) w.st ∧
      (rows.map (fun r => Event._call_java 2 (ptrToInt r.1) r.2.1 (ptrToInt r.2.2)) ++
          [Event._call_java 3 (ptrToInt finalContext) 0 0]).map Event.xType
        = List.replicate rows.length (some 2) ++ [some 3] ∧
      (rows.map (fun r => Event._call_java 2 (ptrToInt r.1) r.2.1 (ptrToInt r.2.2)) ++
          [Event._call_java 3 (ptrToInt finalContext) 0 0]).length = rows.length + 1) := by
  refine ⟨⟨?_, ?_, ?_, expectedCall_xType is⟩, ⟨?_, ?_, ?_, ?_⟩⟩
  · rw [runAll_eq]
  · rw [runAll_eq]
  · simp
  · rw [runAll_eq, aggregateRun_expectedCall]
    simp [callEvent, Function.comp_def]
  · rw [runAll_eq, aggregateRun_expectedCall]
  · rw [List.map_append, List.map_map]
    congr 1
    rw [List.eq_replicate_iff]
    constructor
    · simp
    · intro b hb
      simp only [List.mem_map, Function.comp] at hb
      obtain ⟨r, _, hr⟩ := hb
      exact hr.symm
  · simp

/-- Instance of C10 on the small collaborator, whose state is what its
dispatch function has received.  A scalar call, a step call and a final call
on three different handles are received in that order; an aggregate run over
3 rows, the final call on a handle of its own, is received as 3 calls tagged
2 and then `(3, 4108, 0, 0)`, 4 calls in all. -/
theorem trampolines_keep_order_witness :
    ((runAll demoEnv
        [Invocation.xFunc_helper 4096 1 8192, Invocation.xStep_helper 4100 2 8200,
         Invocation.xFinal_helper 4104] demoWorld).st
      = [(1, 4096, 1, 8192), (2, 4100, 2, 8200), (3, 4104, 0, 0)]) ∧
    ((runAll demoEnv
        (aggregateRun [(4096, 1, 8192), (4096, 1, 8196), (4100, 1, 8200)] 4108) demoWorld).st
      = [(2, 4096, 1, 8192), (2, 4096, 1, 8196), (2, 4100, 1, 8200), (3, 4108, 0, 0)]) ∧
    ((runAll demoEnv
        (aggregateRun [(4096, 1, 8192), (4096, 1, 8196), (4100, 1, 8200)] 4108)
        demoWorld).trace
      = [Event._call_java 2 4096 1 8192, Event._call_java 2 4096 1 8196,
         Event._call_java 2 4100 1 8200, Event._call_java 3 4108 0 0]) :=
  ⟨(trampolines_keep_order demoEnv demoWorld
      [Invocation.xFunc_helper 4096 1 8192, Invocation.xStep_helper 4100 2 8200,
       Invocation.xFinal_helper 4104] [] 0).1.2.1,
   (trampolines_keep_order demoEnv demoWorld []
      [(4096, 1, 8192), (4096, 1, 8196), (4100, 1, 8200)] 4108).2.2.1,
   (trampolines_keep_order demoEnv demoWorld []
      [(4096, 1, 8192), (4096, 1, 8196), (4100, 1, 8200)] 4108).2.1⟩

/-! ## `column_metadata_helper` -/

/-- C5: for every connection, statement, column index and prior content of the
record: when the engine returns a null table name or a null column name for
the result column, `column_metadata_helper` returns 0, leaves the record at
`{0, 0, 0}`, and makes no schema-metadata query (its only calls are the two
name look-ups). -/
theorem column_metadata_helper_absent {σ : Type} (e : Env σ) (w : World σ) (db stmt : Ptr)
    (col : Int) (p : metadata)
    (h : (e.sqlite3_column_table_name w.st stmt col).1 = none ∨
      (e.sqlite3_column_name (e.sqlite3_column_table_name w.st stmt col).2 stmt col).1
        = none) :
    (column_metadata_helper e db stmt col p w).1 = 0 ∧
    (column_metadata_helper e db stmt col p w).2.1
      = { pNotNull := 0, pPrimaryKey := 0, pAutoinc := 0 } ∧
    (column_metadata_helper e db stmt col p w).2.2.trace = w.trace ++
      [Event.sqlite3_column_table_name stmt col, Event.sqlite3_column_name stmt col] ∧
    metadataQueries (column_metadata_helper e db stmt col p w).2.2.trace
      = metadataQueries w.trace ∧
    (column_metadata_helper e db stmt col p w).2.2.st
      = (e.sqlite3_column_name (e.sqlite3_column_table_name w.st stmt col).2 stmt col).2 := by
  have hc : ((e.sqlite3_column_table_name w.st stmt col).1.isSome &&
      (e.sqlite3_column_name (e.sqlite3_column_table_name w.st stmt col).2 stmt col).1.isSome)
      = false := by
    rcases h with h | h <;> simp [h]
  have hrun : column_metadata_helper e db stmt col p w
      = (0, { pNotNull := 0, pPrimaryKey := 0, pAutoinc := 0 },
          (call_column_name e stmt col (call_column_table_name e stmt col w).2).2) := by
    simp only [column_metadata_helper, call_column_name, call_column_table_name, hc]
    rfl
  rw [hrun]
  refine ⟨rfl, rfl, ?_, ?_, rfl⟩
  · simp [call_column_name, call_column_table_name]
  · simp [call_column_name, call_column_table_name, metadataQueries_append, metadataQueries]

/-- Witness of C5: column 2 of the small collaborator's statement is the
expression `id+1`, which has no table name; the record, given as `{7, 8, 9}`,
comes back as `{0, 0, 0}` with status 0. -/
theorem column_metadata_helper_absent_witness :
    ((demoEnv.sqlite3_column_table_name demoWorld.st 32 2).1 = none ∨
      (demoEnv.sqlite3_column_name
        (demoEnv.sqlite3_column_table_name demoWorld.st 32 2).2 32 2).1 = none) ∧
    (column_metadata_helper demoEnv 16 32 2 ⟨7, 8, 9⟩ demoWorld).1 = 0 ∧
    (column_metadata_helper demoEnv 16 32 2 ⟨7, 8, 9⟩ demoWorld).2.1
      = { pNotNull := 0, pPrimaryKey := 0, pAutoinc := 0 } ∧
    (column_metadata_helper demoEnv 16 32 2 ⟨7, 8, 9⟩ demoWorld).2.2.trace = demoWorld.trace ++
      [Event.sqlite3_column_table_name 32 2, Event.sqlite3_column_name 32 2] ∧
    metadataQueries (column_metadata_helper demoEnv 16 32 2 ⟨7, 8, 9⟩ demoWorld).2.2.trace
      = metadataQueries demoWorld.trace ∧
    (column_metadata_helper demoEnv 16 32 2 ⟨7, 8, 9⟩ demoWorld).2.2.st
      = (demoEnv.sqlite3_column_name
          (demoEnv.sqlite3_column_table_name demoWorld.st 32 2).2 32 2).2 :=
  ⟨Or.inl (by decide),
   column_metadata_helper_absent demoEnv demoWorld 16 32 2 ⟨7, 8, 9⟩ (Or.inl (by decide))⟩

/-- C7, the code at a result column selected under an alias: column 1 of the
small collaborator's statement is `id AS x`, whose origin column name is `id`
and whose result-set name is `x`.  `column_metadata_helper` queries the schema
metadata with `("t", "x")`, not with `("t", "id")`, and returns the error
status the engine gives for the unknown column `x`, with the record at
`{0, 0, 0}`. -/
theorem column_metadata_helper_alias_is_queried :
    (demoEnv.sqlite3_column_origin_name demoWorld.st 32 1).1 = some "id" ∧
    (demoEnv.sqlite3_column_name demoWorld.st 32 1).1 = some "x" ∧
    metadataQueries (column_metadata_helper demoEnv 16 32 1 ⟨0, 0, 0⟩ demoWorld).2.2.trace
      = [{ db := 16, zDbName := none, zTableName := some "t", zColumnName := some "x"
           pzDataType := false, pzCollSeq := false
           pNotNull := 0, pPrimaryKey := 0, pAutoinc := 0 }] ∧
    metadataQueries (column_metadata_helper demoEnv 16 32 1 ⟨0, 0, 0⟩ demoWorld).2.2.trace
      ≠ [{ db := 16, zDbName := none, zTableName := some "t", zColumnName := some "id"
           pzDataType := false, pzCollSeq := false
           pNotNull := 0, pPrimaryKey := 0, pAutoinc := 0 }] ∧
    (column_metadata_helper demoEnv 16 32 1 ⟨0, 0, 0⟩ demoWorld).1 = SQLITE_ERROR ∧
    (column_metadata_helper demoEnv 16 32 1 ⟨0, 0, 0⟩ demoWorld).2.1
      = { pNotNull := 0, pPrimaryKey := 0, pAutoinc := 0 } := by
  decide

end NestedDB
